import Mathlib

/-!
Verification of `windows/flutter/generated_plugin_registrant.cc`.

The file under verification defines a single C++ function

  void RegisterPlugins(flutter::PluginRegistry* registry)

which, for each of six statically enumerated plugins, obtains a scoped
registrar handle via `registry->GetRegistrarForPlugin(<plugin name>)` and
passes that handle to the plugin's generated
`<Plugin>RegisterWithRegistrar` entry point.

We embed this shallowly: the host registry and the six external plugin
entry points are abstract parameters (stateful functions over an abstract
world state `σ`, returning abstract registrar handles of type `ρ`), and
`RegisterPlugins` is the straight-line sequence of calls the C++ body
performs.  Alongside the final world state, the embedding returns the
trace of observable calls (each registrar lookup, with the handle it
returned, and each registration call, with the handle it was passed), so
that ordering, pairing and data-flow properties can be stated.
-/

/-- The six plugins statically enumerated by the generated registrant
(identifying their `*RegisterWithRegistrar` entry points). -/
inductive Plugin : Type
  | BatteryPlusWindowsPlugin
  | ConnectivityPlusWindowsPlugin
  | FirebaseCorePluginCApi
  | FlutterSecureStorageWindowsPlugin
  | FlutterWebRTCPlugin
  | PermissionHandlerWindowsPlugin
deriving DecidableEq

/-- The plugin-name string the registrant passes to
`GetRegistrarForPlugin` for each plugin (the literal from the source). -/
def Plugin.pluginName : Plugin → String
  | .BatteryPlusWindowsPlugin => "BatteryPlusWindowsPlugin"
  | .ConnectivityPlusWindowsPlugin => "ConnectivityPlusWindowsPlugin"
  | .FirebaseCorePluginCApi => "FirebaseCorePluginCApi"
  | .FlutterSecureStorageWindowsPlugin => "FlutterSecureStorageWindowsPlugin"
  | .FlutterWebRTCPlugin => "FlutterWebRTCPlugin"
  | .PermissionHandlerWindowsPlugin => "PermissionHandlerWindowsPlugin"

/-- The host-supplied plugin registry (`flutter::PluginRegistry`):
`GetRegistrarForPlugin` takes a plugin-name string, may update the host
world state `σ`, and returns a registrar handle of type `ρ`. -/
structure PluginRegistry (σ ρ : Type) : Type where
  GetRegistrarForPlugin : String → σ → ρ × σ

/-- The six externally supplied `*RegisterWithRegistrar` entry points:
each takes the registrar handle it is handed and may update the host
world state. -/
structure PluginEntryPoints (σ ρ : Type) : Type where
  BatteryPlusWindowsPluginRegisterWithRegistrar : ρ → σ → σ
  ConnectivityPlusWindowsPluginRegisterWithRegistrar : ρ → σ → σ
  FirebaseCorePluginCApiRegisterWithRegistrar : ρ → σ → σ
  FlutterSecureStorageWindowsPluginRegisterWithRegistrar : ρ → σ → σ
  FlutterWebRTCPluginRegisterWithRegistrar : ρ → σ → σ
  PermissionHandlerWindowsPluginRegisterWithRegistrar : ρ → σ → σ

/-- One observable call made by `RegisterPlugins`: either a registrar
lookup on the registry (recording the name asked for and the handle the
registry returned), or an invocation of a plugin's registration entry
point (recording which entry point and the handle it was passed). -/
inductive Event (ρ : Type) : Type
  | GetRegistrarForPlugin (pluginName : String) (returned : ρ)
  | RegisterWithRegistrar (entry : Plugin) (registrar : ρ)

/-- Shallow embedding of the body of `RegisterPlugins` from
`generated_plugin_registrant.cc`: six registrar lookups, each
immediately followed by the corresponding registration call, in the
source's order.  Returns the call trace and the final world state. -/
def RegisterPlugins (registry : PluginRegistry σ ρ)
    (plugins : PluginEntryPoints σ ρ) (s : σ) : List (Event ρ) × σ :=
  let g1 := registry.GetRegistrarForPlugin ("BatteryPlusWindowsPlugin") s
  let s1 := plugins.BatteryPlusWindowsPluginRegisterWithRegistrar g1.1 g1.2
  let g2 := registry.GetRegistrarForPlugin ("ConnectivityPlusWindowsPlugin") s1
  let s2 := plugins.ConnectivityPlusWindowsPluginRegisterWithRegistrar g2.1 g2.2
  let g3 := registry.GetRegistrarForPlugin ("FirebaseCorePluginCApi") s2
  let s3 := plugins.FirebaseCorePluginCApiRegisterWithRegistrar g3.1 g3.2
  let g4 := registry.GetRegistrarForPlugin ("FlutterSecureStorageWindowsPlugin") s3
  let s4 := plugins.FlutterSecureStorageWindowsPluginRegisterWithRegistrar g4.1 g4.2
  let g5 := registry.GetRegistrarForPlugin ("FlutterWebRTCPlugin") s4
  let s5 := plugins.FlutterWebRTCPluginRegisterWithRegistrar g5.1 g5.2
  let g6 := registry.GetRegistrarForPlugin ("PermissionHandlerWindowsPlugin") s5
  let s6 := plugins.PermissionHandlerWindowsPluginRegisterWithRegistrar g6.1 g6.2
  ([Event.GetRegistrarForPlugin ("BatteryPlusWindowsPlugin") g1.1,
    Event.RegisterWithRegistrar Plugin.BatteryPlusWindowsPlugin g1.1,
    Event.GetRegistrarForPlugin ("ConnectivityPlusWindowsPlugin") g2.1,
    Event.RegisterWithRegistrar Plugin.ConnectivityPlusWindowsPlugin g2.1,
    Event.GetRegistrarForPlugin ("FirebaseCorePluginCApi") g3.1,
    Event.RegisterWithRegistrar Plugin.FirebaseCorePluginCApi g3.1,
    Event.GetRegistrarForPlugin ("FlutterSecureStorageWindowsPlugin") g4.1,
    Event.RegisterWithRegistrar Plugin.FlutterSecureStorageWindowsPlugin g4.1,
    Event.GetRegistrarForPlugin ("FlutterWebRTCPlugin") g5.1,
    Event.RegisterWithRegistrar Plugin.FlutterWebRTCPlugin g5.1,
    Event.GetRegistrarForPlugin ("PermissionHandlerWindowsPlugin") g6.1,
    Event.RegisterWithRegistrar Plugin.PermissionHandlerWindowsPlugin g6.1],
   s6)

/-- The C++ parameter is a raw pointer `flutter::PluginRegistry*`.
A call through a possibly-null pointer: a null registry is dereferenced
by the very first `GetRegistrarForPlugin` lookup (the body performs no
null check), so execution faults there, before any call event occurs.
The result pairs the trace of calls completed before any fault with
`some` final state on success or `none` on the null-dereference fault. -/
def RegisterPluginsPtr (registry : Option (PluginRegistry σ ρ))
    (plugins : PluginEntryPoints σ ρ) (s : σ) : List (Event ρ) × Option σ :=
  match registry with
  | none => ([], none)
  | some reg => ((RegisterPlugins reg plugins s).1, some (RegisterPlugins reg plugins s).2)

/-- A host registry whose `GetRegistrarForPlugin` may fail (modelled
with `Except`), for stating that no error originates in the registrant
itself. -/
structure FalliblePluginRegistry (ε σ ρ : Type) : Type where
  GetRegistrarForPlugin : String → σ → Except ε (ρ × σ)

/-- The six entry points, each allowed to fail. -/
structure FalliblePluginEntryPoints (ε σ ρ : Type) : Type where
  BatteryPlusWindowsPluginRegisterWithRegistrar : ρ → σ → Except ε σ
  ConnectivityPlusWindowsPluginRegisterWithRegistrar : ρ → σ → Except ε σ
  FirebaseCorePluginCApiRegisterWithRegistrar : ρ → σ → Except ε σ
  FlutterSecureStorageWindowsPluginRegisterWithRegistrar : ρ → σ → Except ε σ
  FlutterWebRTCPluginRegisterWithRegistrar : ρ → σ → Except ε σ
  PermissionHandlerWindowsPluginRegisterWithRegistrar : ρ → σ → Except ε σ

/-- The same straight-line body over fallible external calls: the
registrant adds no check and no error of its own, it merely propagates
whatever the registry or a plugin produces. -/
def RegisterPluginsE (registry : FalliblePluginRegistry ε σ ρ)
    (plugins : FalliblePluginEntryPoints ε σ ρ) (s : σ) : Except ε σ := do
  let g1 ← registry.GetRegistrarForPlugin ("BatteryPlusWindowsPlugin") s
  let s1 ← plugins.BatteryPlusWindowsPluginRegisterWithRegistrar g1.1 g1.2
  let g2 ← registry.GetRegistrarForPlugin ("ConnectivityPlusWindowsPlugin") s1
  let s2 ← plugins.ConnectivityPlusWindowsPluginRegisterWithRegistrar g2.1 g2.2
  let g3 ← registry.GetRegistrarForPlugin ("FirebaseCorePluginCApi") s2
  let s3 ← plugins.FirebaseCorePluginCApiRegisterWithRegistrar g3.1 g3.2
  let g4 ← registry.GetRegistrarForPlugin ("FlutterSecureStorageWindowsPlugin") s3
  let s4 ← plugins.FlutterSecureStorageWindowsPluginRegisterWithRegistrar g4.1 g4.2
  let g5 ← registry.GetRegistrarForPlugin ("FlutterWebRTCPlugin") s4
  let s5 ← plugins.FlutterWebRTCPluginRegisterWithRegistrar g5.1 g5.2
  let g6 ← registry.GetRegistrarForPlugin ("PermissionHandlerWindowsPlugin") s5
  let s6 ← plugins.PermissionHandlerWindowsPluginRegisterWithRegistrar g6.1 g6.2
  pure s6

/-- Names asked of the registry, in trace order. -/
def lookupNames : List (Event ρ) → List String
  | [] => []
  | Event.GetRegistrarForPlugin n _ :: rest => n :: lookupNames rest
  | _ :: rest => lookupNames rest

/-- Entry points invoked, in trace order. -/
def registerEntries : List (Event ρ) → List Plugin
  | [] => []
  | Event.RegisterWithRegistrar p _ :: rest => p :: registerEntries rest
  | _ :: rest => registerEntries rest

/-- Number of registration calls to plugin `p` in a trace. -/
def registerCount (p : Plugin) : List (Event ρ) → Nat
  | [] => 0
  | Event.RegisterWithRegistrar q _ :: rest =>
      (if q = p then 1 else 0) + registerCount p rest
  | _ :: rest => registerCount p rest

/-- The control-flow label of an event: which call was made, with the
data-dependent registrar handle erased. -/
def Event.label : Event ρ → Event Unit
  | Event.GetRegistrarForPlugin n _ => Event.GetRegistrarForPlugin n ()
  | Event.RegisterWithRegistrar p _ => Event.RegisterWithRegistrar p ()

/-- A trace alternates lookup/registration pairs in which the name asked
of the registry is the name of the plugin whose entry point then
receives exactly the handle that lookup returned. -/
def pairedByName : List (Event ρ) → Prop
  | [] => True
  | Event.GetRegistrarForPlugin n r :: Event.RegisterWithRegistrar p r' :: rest =>
      n = Plugin.pluginName p ∧ r' = r ∧ pairedByName rest
  | _ => False

/-- A trivial host registry over `Unit` world state and `Nat` handles,
used to instantiate universally quantified theorems at a concrete
input. -/
def unitRegistry : PluginRegistry Unit Nat :=
  ⟨fun _ s => (0, s)⟩

/-- Trivial entry points over the same types. -/
def unitEntryPoints : PluginEntryPoints Unit Nat :=
  ⟨fun _ s => s, fun _ s => s, fun _ s => s, fun _ s => s, fun _ s => s, fun _ s => s⟩

/-- A fallible registry that never fails. -/
def okRegistry : FalliblePluginRegistry Unit Unit Nat :=
  ⟨fun _ s => Except.ok (0, s)⟩

/-- Fallible entry points that never fail. -/
def okEntryPoints : FalliblePluginEntryPoints Unit Unit Nat :=
  ⟨fun _ s => Except.ok s, fun _ s => Except.ok s, fun _ s => Except.ok s,
   fun _ s => Except.ok s, fun _ s => Except.ok s, fun _ s => Except.ok s⟩

/-- Binding a successful `Except` computation just applies the
continuation. -/
theorem exceptOkBind (a : α) (f : α → Except ε β) :
    (Except.ok a >>= f) = f a := rfl

/-- Claim C1: for every plugin registry (and every environment of entry
points and every initial world state), `RegisterPlugins` invokes the
generated registration entry point of each of the six statically
enumerated plugins exactly once against that registry. -/
theorem C1_each_plugin_registered_once (registry : PluginRegistry σ ρ)
    (plugins : PluginEntryPoints σ ρ) (s : σ) (p : Plugin) :
    registerCount p (RegisterPlugins registry plugins s).1 = 1 := by
  cases p <;> simp [RegisterPlugins, registerCount]

/-- Claim C3: the registration calls happen strictly sequentially in the
fixed source order, each plugin's registrar lookup and registration call
occurring before the next plugin's lookup: the trace's control-flow
labels form exactly this list of twelve calls. -/
theorem C3_fixed_call_order (registry : PluginRegistry σ ρ)
    (plugins : PluginEntryPoints σ ρ) (s : σ) :
    ((RegisterPlugins registry plugins s).1).map Event.label =
      [Event.GetRegistrarForPlugin ("BatteryPlusWindowsPlugin") (),
       Event.RegisterWithRegistrar Plugin.BatteryPlusWindowsPlugin (),
       Event.GetRegistrarForPlugin ("ConnectivityPlusWindowsPlugin") (),
       Event.RegisterWithRegistrar Plugin.ConnectivityPlusWindowsPlugin (),
       Event.GetRegistrarForPlugin ("FirebaseCorePluginCApi") (),
       Event.RegisterWithRegistrar Plugin.FirebaseCorePluginCApi (),
       Event.GetRegistrarForPlugin ("FlutterSecureStorageWindowsPlugin") (),
       Event.RegisterWithRegistrar Plugin.FlutterSecureStorageWindowsPlugin (),
       Event.GetRegistrarForPlugin ("FlutterWebRTCPlugin") (),
       Event.RegisterWithRegistrar Plugin.FlutterWebRTCPlugin (),
       Event.GetRegistrarForPlugin ("PermissionHandlerWindowsPlugin") (),
       Event.RegisterWithRegistrar Plugin.PermissionHandlerWindowsPlugin ()] := rfl

/-- Claim C4: `RegisterPlugins` contains no branching: any two runs,
over arbitrary (even differently typed) registries, entry-point
environments and initial states, make the same six name lookups and the
same six registration calls in the same order — the sequence of call
labels is independent of every returned value. -/
theorem C4_call_sequence_independent_of_returns
    (registry₁ : PluginRegistry σ₁ ρ₁) (plugins₁ : PluginEntryPoints σ₁ ρ₁) (s₁ : σ₁)
    (registry₂ : PluginRegistry σ₂ ρ₂) (plugins₂ : PluginEntryPoints σ₂ ρ₂) (s₂ : σ₂) :
    ((RegisterPlugins registry₁ plugins₁ s₁).1).map Event.label =
      ((RegisterPlugins registry₂ plugins₂ s₂).1).map Event.label := rfl

/-- Claim C6: `RegisterPlugins` terminates on every input: it is a total
straight-line function whose single run completes after exactly six
registrar lookups and six registration calls (twelve calls in all). -/
theorem C6_completes_after_six_lookups_six_calls (registry : PluginRegistry σ ρ)
    (plugins : PluginEntryPoints σ ρ) (s : σ) :
    ((RegisterPlugins registry plugins s).1).length = 12 ∧
    (lookupNames (RegisterPlugins registry plugins s).1).length = 6 ∧
    (registerEntries (RegisterPlugins registry plugins s).1).length = 6 := by
  refine ⟨rfl, ?_, ?_⟩ <;> simp [RegisterPlugins, lookupNames, registerEntries]

/-- Claim C8: in every lookup/registration pair of the trace, the
plugin-name string passed to `GetRegistrarForPlugin` names exactly the
plugin whose entry point then receives the handle that lookup returned;
no handle obtained under one plugin's name goes to another's entry
point. -/
theorem C8_lookup_name_matches_entry_point (registry : PluginRegistry σ ρ)
    (plugins : PluginEntryPoints σ ρ) (s : σ) :
    pairedByName (RegisterPlugins registry plugins s).1 := by
  simp [RegisterPlugins, pairedByName, Plugin.pluginName]

/-- Claim C9: no plugin is registered twice: the six name strings passed
to `GetRegistrarForPlugin` in one run are pairwise distinct, and each of
the six registration entry points is called exactly once. -/
theorem C9_no_plugin_registered_twice (registry : PluginRegistry σ ρ)
    (plugins : PluginEntryPoints σ ρ) (s : σ) :
    (lookupNames (RegisterPlugins registry plugins s).1).Nodup ∧
    ∀ p : Plugin, registerCount p (RegisterPlugins registry plugins s).1 = 1 := by
  constructor
  · simp only [RegisterPlugins, lookupNames]
    decide
  · intro p
    cases p <;> simp [RegisterPlugins, registerCount]

/-- Claim C10: a null registry pointer is not checked: the null receiver
is hit by the very first registrar lookup, so the run faults having made
no call at all — no registration call is guarded against a null
registry. -/
theorem C10_null_registry_faults_before_any_call
    (plugins : PluginEntryPoints σ ρ) (s : σ) :
    RegisterPluginsPtr (none) plugins s = ([], none) := rfl

/-- Claim C2: every registration call receives, as its single argument,
exactly the registrar handle that the immediately preceding
`GetRegistrarForPlugin` lookup on the supplied registry returned for
that same plugin's name; no registration routine is invoked with any
other argument. -/
theorem C2_registrar_is_the_one_just_looked_up (registry : PluginRegistry σ ρ)
    (plugins : PluginEntryPoints σ ρ) (s : σ) (i : Nat) (p : Plugin) (r : ρ)
    (h : ((RegisterPlugins registry plugins s).1).get? i =
      some (Event.RegisterWithRegistrar p r)) :
    ((RegisterPlugins registry plugins s).1).get? (i - 1) =
      some (Event.GetRegistrarForPlugin (Plugin.pluginName p) r) := by
  rcases i with _|_|_|_|_|_|_|_|_|_|_|_|i <;> cases p <;>
    simp_all [RegisterPlugins, Plugin.pluginName]

theorem C2_registrar_is_the_one_just_looked_up_witness :
    ((RegisterPlugins unitRegistry unitEntryPoints ()).1).get? 0 =
      some (Event.GetRegistrarForPlugin
        (Plugin.pluginName Plugin.BatteryPlusWindowsPlugin) 0) :=
  C2_registrar_is_the_one_just_looked_up unitRegistry unitEntryPoints () 1
    Plugin.BatteryPlusWindowsPlugin 0 rfl

/-- Claim C5: no error originates in `RegisterPlugins` itself: whenever
the host registry's `GetRegistrarForPlugin` and all six plugin
registration routines succeed on every input, the whole run succeeds —
the registrant performs no check and contributes no failure path of its
own. -/
theorem C5_no_error_originates_in_registrant
    (registry : FalliblePluginRegistry ε σ ρ)
    (plugins : FalliblePluginEntryPoints ε σ ρ) (s : σ)
    (hreg : ∀ n st, ∃ out, registry.GetRegistrarForPlugin n st = Except.ok out)
    (h1 : ∀ r st, ∃ out,
      plugins.BatteryPlusWindowsPluginRegisterWithRegistrar r st = Except.ok out)
    (h2 : ∀ r st, ∃ out,
      plugins.ConnectivityPlusWindowsPluginRegisterWithRegistrar r st = Except.ok out)
    (h3 : ∀ r st, ∃ out,
      plugins.FirebaseCorePluginCApiRegisterWithRegistrar r st = Except.ok out)
    (h4 : ∀ r st, ∃ out,
      plugins.FlutterSecureStorageWindowsPluginRegisterWithRegistrar r st = Except.ok out)
    (h5 : ∀ r st, ∃ out,
      plugins.FlutterWebRTCPluginRegisterWithRegistrar r st = Except.ok out)
    (h6 : ∀ r st, ∃ out,
      plugins.PermissionHandlerWindowsPluginRegisterWithRegistrar r st = Except.ok out) :
    ∃ out, RegisterPluginsE registry plugins s = Except.ok out := by
  obtain ⟨g1, hg1⟩ := hreg ("BatteryPlusWindowsPlugin") s
  obtain ⟨s1, hs1⟩ := h1 g1.1 g1.2
  obtain ⟨g2, hg2⟩ := hreg ("ConnectivityPlusWindowsPlugin") s1
  obtain ⟨s2, hs2⟩ := h2 g2.1 g2.2
  obtain ⟨g3, hg3⟩ := hreg ("FirebaseCorePluginCApi") s2
  obtain ⟨s3, hs3⟩ := h3 g3.1 g3.2
  obtain ⟨g4, hg4⟩ := hreg ("FlutterSecureStorageWindowsPlugin") s3
  obtain ⟨s4, hs4⟩ := h4 g4.1 g4.2
  obtain ⟨g5, hg5⟩ := hreg ("FlutterWebRTCPlugin") s4
  obtain ⟨s5, hs5⟩ := h5 g5.1 g5.2
  obtain ⟨g6, hg6⟩ := hreg ("PermissionHandlerWindowsPlugin") s5
  obtain ⟨s6, hs6⟩ := h6 g6.1 g6.2
  refine ⟨s6, ?_⟩
  simp [RegisterPluginsE, exceptOkBind, hg1, hs1, hg2, hs2, hg3, hs3, hg4, hs4,
    hg5, hs5, hg6, hs6]

theorem C5_no_error_originates_in_registrant_witness :
    ∃ out, RegisterPluginsE okRegistry okEntryPoints () = Except.ok out :=
  C5_no_error_originates_in_registrant okRegistry okEntryPoints ()
    (fun _ st => ⟨(0, st), rfl⟩) (fun _ st => ⟨st, rfl⟩) (fun _ st => ⟨st, rfl⟩)
    (fun _ st => ⟨st, rfl⟩) (fun _ st => ⟨st, rfl⟩) (fun _ st => ⟨st, rfl⟩)
    (fun _ st => ⟨st, rfl⟩)

/-- Claim C7: `RegisterPlugins` owns no state of its own: it mutates the
world only through the registry's lookup and the plugin routines it
calls, so whenever those external calls leave the world state unchanged,
the whole run leaves it unchanged. -/
theorem C7_mutates_only_via_registry_and_plugins (registry : PluginRegistry σ ρ)
    (plugins : PluginEntryPoints σ ρ) (s : σ)
    (hreg : ∀ n st, (registry.GetRegistrarForPlugin n st).2 = st)
    (h1 : ∀ r st, plugins.BatteryPlusWindowsPluginRegisterWithRegistrar r st = st)
    (h2 : ∀ r st, plugins.ConnectivityPlusWindowsPluginRegisterWithRegistrar r st = st)
    (h3 : ∀ r st, plugins.FirebaseCorePluginCApiRegisterWithRegistrar r st = st)
    (h4 : ∀ r st, plugins.FlutterSecureStorageWindowsPluginRegisterWithRegistrar r st = st)
    (h5 : ∀ r st, plugins.FlutterWebRTCPluginRegisterWithRegistrar r st = st)
    (h6 : ∀ r st, plugins.PermissionHandlerWindowsPluginRegisterWithRegistrar r st = st) :
    (RegisterPlugins registry plugins s).2 = s := by
  simp [RegisterPlugins, hreg, h1, h2, h3, h4, h5, h6]

theorem C7_mutates_only_via_registry_and_plugins_witness :
    (RegisterPlugins unitRegistry unitEntryPoints ()).2 = () :=
  C7_mutates_only_via_registry_and_plugins unitRegistry unitEntryPoints ()
    (fun _ _ => rfl) (fun _ _ => rfl) (fun _ _ => rfl) (fun _ _ => rfl)
    (fun _ _ => rfl) (fun _ _ => rfl) (fun _ _ => rfl)
